import Mathlib

/-!
Verification of the behavioural specification of `gst-inspect-rs`
(`src/main.rs`) against a shallow embedding of its code in Lean.

The embedding models the printers of the tool as pure functions from the
data they inspect (registry contents, property specifications, capability
sets, type hierarchy) to the lines of text they emit.  Colour styling is
presentation only (spec §6) and is not part of the embedded text.  The
iteration order of the `HashMap` built in `print_pspec_flags` is not
specified by Rust, so the embedding of that function receives the
iteration order as an explicit argument, constrained to be a permutation
of the entries inserted by the source.
-/

namespace GstInspect

/-- A run of `n` spaces, modelling `" ".repeat(n)` and `format!("{:indent$}", "")`. -/
def spaces (n : Nat) : String :=
  String.mk (List.replicate n ' ')

/-- Left-pad `s` with spaces to width `w`, modelling `format!("{:>w$}", s)`. -/
def padLeft (s : String) (w : Nat) : String :=
  spaces (w - s.length) ++ s

/-- Right-pad `s` with spaces to width `w`, modelling `format!("{:<w$}", s)`. -/
def padRight (s : String) (w : Nat) : String :=
  s ++ spaces (w - s.length)

/-! ## Property flags (`print_pspec_flags`, main.rs:361-391) -/

/-- The GParamSpec flags inspected by `print_pspec_flags`. -/
inductive ParamFlag
  | readable
  | writable
  | deprecated
  | controllable
  | mutablePlaying
  | mutablePaused
  | mutableReady
deriving DecidableEq, Repr

/-- The entries inserted into the `flags_to_string` hash map at
main.rs:362-373, in source order.  Note that the source really does pair
`ParamFlags::READABLE` with the text `"writable"` and
`ParamFlags::WRITABLE` with the text `"readable"`. -/
def flagsToString : List (ParamFlag × String) :=
  [(ParamFlag.readable, "writable"),
   (ParamFlag.writable, "readable"),
   (ParamFlag.deprecated, "deprecated"),
   (ParamFlag.controllable, "controllable"),
   (ParamFlag.mutablePlaying, "changeable in NULL, READY, PAUSED or PLAYING state"),
   (ParamFlag.mutablePaused, "changeable only in NULL, READY or PAUSED state"),
   (ParamFlag.mutableReady, "changeable only in NULL or READY state")]

/-- The flag strings emitted by the loop of `print_pspec_flags`
(main.rs:379-389): iterate the hash map in iteration order `ord`,
keeping the entries whose flag is contained in `fl`. -/
def pspecFlagStrings (ord : List (ParamFlag × String)) (fl : List ParamFlag) : List String :=
  (ord.filter (fun p => decide (p.1 ∈ fl))).map Prod.snd

/-- The full `flags` line printed by `print_pspec_flags` (main.rs:361-391),
given hash-map iteration order `ord`, the property's flags `fl`, and the
indentation passed by the caller. -/
def print_pspec_flags (ord : List (ParamFlag × String)) (fl : List ParamFlag)
    (ind : Nat) : String :=
  spaces ind ++ "flags: " ++ String.intercalate ", " (pspecFlagStrings ord fl)

/-! ## Type hierarchy (`hierarchy_foreach` / `print_hierarchy`, main.rs:130-154) -/

/-- A node of the single-inheritance GType graph: either a root (its
`parent()` is `None`) or a child with one parent.  The parent chain of a
value of this type is finite and acyclic by construction, which is the
invariant the external type system guarantees (spec §3). -/
inductive GType
  | root (name : String)
  | child (name : String) (parent : GType)
deriving DecidableEq, Repr

/-- The `name` accessor of a type node. -/
def GType.name : GType → String
  | .root n => n
  | .child n _ => n

/-- The `parent()` accessor of a type node. -/
def GType.parent : GType → Option GType
  | .root _ => none
  | .child _ p => some p

/-- Length of the parent chain above `t` (0 for a root). -/
def GType.depth : GType → Nat
  | .root _ => 0
  | .child _ p => p.depth + 1

/-- The root of the parent chain of `t`. -/
def GType.rootOf : GType → GType
  | .root n => .root n
  | .child _ p => p.rootOf

/-- Whether `x` occurs in the parent chain of `t` (including `t` itself). -/
def GType.inChain (x : GType) : GType → Bool
  | .root n => decide (x = GType.root n)
  | .child n p => decide (x = GType.child n p) || GType.inChain x p

/-- The visit order of `hierarchy_foreach` (main.rs:130-139): the parent
chain is visited before the node itself, so the list is root first and
leaf last.  `print_hierarchy` folds exactly this order into output. -/
def linearize : GType → List GType
  | .root n => [GType.root n]
  | .child n p => linearize p ++ [GType.child n p]

/-- The lines printed by `print_hierarchy` (main.rs:141-154): the name of
each node of `linearize`, prefixed with the depth glyphs, followed by the
blank line of the trailing `println!()`. -/
def print_hierarchy (t : GType) : List String :=
  ((linearize t).enum.map (fun p =>
    (if p.1 = 0 then "" else String.join (List.replicate (p.1 - 1) "     ") ++ " +----")
      ++ p.2.name)) ++ [""]

/-! ## Capabilities (`print_caps`, main.rs:169-211) -/

/-- A caps-features value as observed by `print_caps`: whether it is the
ANY features marker, and its display string (`f.to_string()`). -/
structure CapsFeatures where
  isAny : Bool
  name : String
deriving DecidableEq, Repr

/-- Model of `gst::CAPS_FEATURES_MEMORY_SYSTEM_MEMORY`, the distinguished
system-memory default features value. -/
def sysMemFeatures : CapsFeatures :=
  { isAny := false, name := "memory:SystemMemory" }

/-- One structure of a caps value: its name and its fields in native
order, each field's value being `some` serialized text or `none` when
`v.serialize()` returns `Err`. -/
structure CapsStructure where
  name : String
  fields : List (String × Option String)
deriving DecidableEq, Repr

/-- A caps value: ANY, EMPTY, or a sequence of structures each with an
optional caps-features value (`caps.features(i)`). -/
inductive Caps
  | any
  | empty
  | structures (l : List (CapsStructure × Option CapsFeatures))
deriving DecidableEq, Repr

/-- The six-space indentation used by `print_caps`. -/
def indent6 : String := spaces 6

/-- The header line for one caps structure (main.rs:183-197): the
structure name, suffixed with the parenthesized features text exactly
when a features value is present and is either ANY or differs from the
system-memory default. -/
def headerLine (s : CapsStructure) (fo : Option CapsFeatures) : String :=
  match fo with
  | some f =>
    if f.isAny || decide (¬ f = sysMemFeatures) then
      indent6 ++ s.name ++ "(" ++ f.name ++ ")"
    else
      indent6 ++ s.name
  | none => indent6 ++ s.name

/-- One `name: value` field line (main.rs:201-205), with the field name
right-aligned to 23 columns. -/
def fieldLine (n v : String) : String :=
  padLeft n 23 ++ ": " ++ v

/-- The field lines of one structure (main.rs:198-208): fields in native
order, a field being silently skipped when its value failed to
serialize. -/
def fieldLines (fields : List (String × Option String)) : List String :=
  fields.filterMap (fun p => p.2.map (fun v => fieldLine p.1 v))

/-- All lines emitted for one caps structure: its header followed by its
field lines. -/
def renderStructure (s : CapsStructure) (fo : Option CapsFeatures) : List String :=
  headerLine s fo :: fieldLines s.fields

/-- The lines printed by `print_caps` (main.rs:169-211). -/
def print_caps : Caps → List String
  | .any => [indent6 ++ "ANY"]
  | .empty => [indent6 ++ "EMPTY"]
  | .structures l => (l.map (fun e => renderStructure e.1 e.2)).flatten

/-! ## Property values (`print_default_property_value`, main.rs:434-523) -/

/-- The kind-specific data of a `glib::ParamSpec`, discriminating the
dispatch branches of `print_default_property_value`.  The ranged kinds
carry `minimum`, `maximum` and the static default; the enum kind carries
the default (value, nick) and the enum class's `(value, nick, name)`
alternatives in declaration order.  The `f32` values of a
`ParamSpecFloat` are modelled, like the `f64` values of a
`ParamSpecDouble`, by their real value as a Lean `Float`. -/
inductive PspecKind
  | strK (default : Option String)
  | boolK (default : Bool)
  | intK (minimum maximum default : Int)
  | uintK (minimum maximum default : Nat)
  | int64K (minimum maximum default : Int)
  | uint64K (minimum maximum default : Nat)
  | longK (minimum maximum default : Int)
  | ulongK (minimum maximum default : Nat)
  | floatK (minimum maximum default : Float)
  | doubleK (minimum maximum default : Float)
  | enumK (default : Int) (defaultNick : String) (values : List (Int × String × String))
  | capsK (default : Option Caps)
  | flagsK (default : Nat)
  | otherK
deriving Repr

/-- A `glib::ParamSpec` as consumed by the property printers: `name`,
`blurb` (may be absent), `flags`, `owner_type` (by type name) and the
kind-specific data. -/
structure ParamSpec where
  name : String
  blurb : Option String
  flags : List ParamFlag
  ownerType : String
  kind : PspecKind
deriving Repr

/-- A `glib::Value` as dispatched on by `print_default_property_value`:
the tag corresponds to `value.type_()`. -/
inductive GValue
  | strV (v : Option String)
  | boolV (v : Bool)
  | intV (v : Int)
  | uintV (v : Nat)
  | int64V (v : Int)
  | uint64V (v : Nat)
  | longV (v : Int)
  | ulongV (v : Nat)
  | floatV (v : Float)
  | doubleV (v : Float)
  | enumV (value : Int) (nick : String)
  | capsV (v : Option Caps)
  | flagsV (v : Nat)
  | otherV
deriving Repr

/-- Model of `pspec.default_value()`: the static default of a param spec as a
`glib::Value`. -/
def defaultValueOf : PspecKind → GValue
  | .strK d => .strV d
  | .boolK d => .boolV d
  | .intK _ _ d => .intV d
  | .uintK _ _ d => .uintV d
  | .int64K _ _ d => .int64V d
  | .uint64K _ _ d => .uint64V d
  | .longK _ _ d => .longV d
  | .ulongK _ _ d => .ulongV d
  | .floatK _ _ d => .floatV d
  | .doubleK _ _ d => .doubleV d
  | .enumK dv dn _ => .enumV dv dn
  | .capsK d => .capsV d
  | .flagsK d => .flagsV d
  | .otherK => .otherV

/-- The value selection at main.rs:435-439, performed once before any
dispatch: the live bound value (`obj.property(..)`) when `readable`,
otherwise the spec's static default. -/
def selectValue (live : String → GValue) (spec : ParamSpec) (readable : Bool) : GValue :=
  if readable then live spec.name else defaultValueOf spec.kind

/-- The line of the `STRING` branch (main.rs:443-453). -/
def strLine (ind : Nat) (v : Option String) : String :=
  spaces ind ++ ": String. Default: " ++
    (match v with
     | some s => "\"" ++ s ++ "\""
     | none => "null")

/-- The line of the `BOOL` branch (main.rs:454-463).  The source wraps
the rendered boolean in double quotation marks. -/
def boolLine (ind : Nat) (v : Bool) : String :=
  spaces ind ++ ": Boolean. Default: " ++ "\"" ++ (if v then "true" else "false") ++ "\""

/-- The line of the `print_ranged_property!` macro (main.rs:412-432):
`Range` is taken from the param spec's `minimum()`/`maximum()`, `Default`
from the selected value. -/
def rangedLine (ind : Nat) (title lo hi df : String) : String :=
  spaces ind ++ ": " ++ title ++ ". Range: " ++ lo ++ " - " ++ hi ++ ". Default: " ++ df

/-- The lines of the enum branch (main.rs:475-499): the `Default` line
followed by one line per alternative of the enum class, indexed by
position, the nick padded to 16 columns. -/
def enumLines (ind : Nat) (v : Int) (nick : String)
    (vals : List (Int × String × String)) : List String :=
  (spaces ind ++ ": Enum. Default: " ++ toString v ++ ", \"" ++ nick ++ "\"") ::
    vals.enum.map (fun p =>
      spaces 24 ++ "(" ++ toString p.1 ++ "): " ++ padRight p.2.2.1 16 ++ " - " ++ p.2.2.2)

/-- The dispatch of `print_default_property_value` on the selected
value's type tag (main.rs:442-523), producing the emitted lines, or
`none` when the source would panic (the `downcast_ref(..).unwrap()` on a
param spec whose kind does not match the value's type).  The trailing
`println!()` closes the open partial line, or emits a blank line when no
branch printed anything. -/
def dispatchValue (spec : ParamSpec) (ind : Nat) : GValue → Option (List String)
  | .strV v => some [strLine ind v]
  | .boolV v => some [boolLine ind v]
  | .intV v =>
    match spec.kind with
    | .intK lo hi _ => some [rangedLine ind "Integer" (toString lo) (toString hi) (toString v)]
    | _ => none
  | .uintV v =>
    match spec.kind with
    | .uintK lo hi _ =>
      some [rangedLine ind "Unsigned Integer" (toString lo) (toString hi) (toString v)]
    | _ => none
  | .int64V v =>
    match spec.kind with
    | .int64K lo hi _ =>
      some [rangedLine ind "Integer64" (toString lo) (toString hi) (toString v)]
    | _ => none
  | .uint64V v =>
    match spec.kind with
    | .uint64K lo hi _ =>
      some [rangedLine ind "Unsigned Integer64" (toString lo) (toString hi) (toString v)]
    | _ => none
  | .longV v =>
    match spec.kind with
    | .longK lo hi _ => some [rangedLine ind "Long" (toString lo) (toString hi) (toString v)]
    | _ => none
  | .ulongV v =>
    match spec.kind with
    | .ulongK lo hi _ =>
      some [rangedLine ind "Unsigned Long" (toString lo) (toString hi) (toString v)]
    | _ => none
  | .floatV v =>
    match spec.kind with
    | .floatK lo hi _ => some [rangedLine ind "Float" (toString lo) (toString hi) (toString v)]
    | _ => none
  | .doubleV v =>
    match spec.kind with
    | .doubleK lo hi _ =>
      some [rangedLine ind "Double" (toString lo) (toString hi) (toString v)]
    | _ => none
  | .enumV v nick =>
    match spec.kind with
    | .enumK _ _ vals => some (enumLines ind v nick vals)
    | _ => none
  | .capsV (some c) => some (print_caps c ++ [""])
  | .capsV none => some ["Caps (NULL)", ""]
  | .flagsV _ => some [""]
  | .otherV => some [""]

/-- Embedding of `print_default_property_value` (main.rs:434-523): select the value
once (live when readable, static default otherwise), then dispatch on
its type tag. -/
def print_default_property_value (live : String → GValue) (spec : ParamSpec)
    (readable : Bool) (ind : Nat) : Option (List String) :=
  dispatchValue spec ind (selectValue live spec readable)

/-! ## Element properties (`print_element_properties`, main.rs:525-551) -/

/-- Embedding of `print_property` (main.rs:85-90): one formatted line, the name
left-padded to `width`, preceded by `indentN` spaces, optionally
followed by a colon and the value. -/
def print_property (name value : String) (width indentN : Nat) (colon : Bool) : String :=
  spaces indentN ++ padRight name width ++ (if colon then ": " else "") ++ value

/-- The owner-type filter at main.rs:536-543: properties owned by the
generic `GObject`, `GstObject` or `GstPad` types are skipped. -/
def skipOwner (ot : String) : Bool :=
  ot == "GObject" || ot == "GstObject" || ot == "GstPad"

/-- Comparison used by `property_specs.sort_by_key(|pspec| pspec.name())`
(main.rs:530). -/
def specLe (p q : ParamSpec) : Bool :=
  decide (p.name ≤ q.name)

/-- The per-property loop of `print_element_properties` (main.rs:535-550)
over an already sorted spec list: skip filtered owners; otherwise print
the name/blurb line (`pspec.blurb().unwrap()` panics — modelled as
`none` — when the blurb is absent), the flags line, and the value lines.
`ord` is the hash-map iteration order used by `print_pspec_flags`. -/
def renderProps (live : String → GValue) (ord : List (ParamFlag × String)) :
    List ParamSpec → Option (List String)
  | [] => some []
  | p :: rest =>
    if skipOwner p.ownerType then renderProps live ord rest
    else
      match p.blurb with
      | none => none
      | some b =>
        match print_default_property_value live p (decide (ParamFlag.readable ∈ p.flags)) 22 with
        | none => none
        | some vlines =>
          (renderProps live ord rest).map (fun r =>
            print_property p.name b 20 2 true ::
              print_pspec_flags ord p.flags 24 :: (vlines ++ r))

/-- Embedding of `print_element_properties` (main.rs:525-551): sort the property
specs by name, then render each, under the section heading.  `none`
models a panic aborting the report. -/
def print_element_properties (live : String → GValue) (ord : List (ParamFlag × String))
    (specs : List ParamSpec) : Option (List String) :=
  (renderProps live ord (specs.mergeSort specLe)).map
    (fun ls => "Element Properties:" :: "" :: ls)

/-! ## List mode (`print_element_list`, main.rs:53-73) -/

/-- A plugin as consumed by list mode: only its name is read. -/
structure Plugin where
  plugin_name : String
deriving DecidableEq, Repr

/-- A plugin feature as consumed by list mode: its name, and
`some longname` exactly when `downcast_ref::<ElementFactory>()`
succeeds (the feature is an element factory). -/
structure Feature where
  name : String
  elementFactory : Option String
deriving DecidableEq, Repr

/-- The registry as consumed by list mode: the enumerated plugins (in
enumeration order) and `features_by_plugin`, keyed by plugin name. -/
structure Registry where
  plugins : List Plugin
  featuresByPlugin : String → List Feature

/-- Comparison used by `plugins.sort_by(.. plugin_name ..)` (main.rs:57). -/
def pluginLe (p q : Plugin) : Bool :=
  decide (p.plugin_name ≤ q.plugin_name)

/-- Comparison used by `features.sort_by(.. name ..)` (main.rs:61). -/
def featureLe (f g : Feature) : Bool :=
  decide (f.name ≤ g.name)

/-- Comparison on the underlying strings. -/
def strLe (a b : String) : Bool :=
  decide (a ≤ b)

/-- The stable sort of the plugin list (main.rs:57). -/
def sortPlugins (l : List Plugin) : List Plugin :=
  l.mergeSort pluginLe

/-- The stable sort of a feature list (main.rs:61). -/
def sortFeatures (l : List Feature) : List Feature :=
  l.mergeSort featureLe

/-- The line printed for one feature (main.rs:63-70): present exactly
when the feature is an element factory. -/
def elementLine (pname : String) (f : Feature) : Option String :=
  f.elementFactory.map (fun long => pname ++ ":  " ++ f.name ++ ": " ++ long)

/-- The lines contributed by one plugin: its features sorted by name,
each element factory producing one line. -/
def pluginLines (fpb : String → List Feature) (pname : String) : List String :=
  (sortFeatures (fpb pname)).filterMap (elementLine pname)

/-- The lines printed by `print_element_list` (main.rs:53-73): plugins
sorted by name, then per plugin its element-factory lines. -/
def print_element_list (r : Registry) : List String :=
  ((sortPlugins r.plugins).map (fun p => pluginLines r.featuresByPlugin p.plugin_name)).flatten

/-! ## Detail-mode exit status (`print_element_info` / `print_feature_info`,
main.rs:553-600) -/

/-- A factory in detail mode: `create_with_name(None)` either succeeds or
fails. -/
structure FactoryD where
  createOk : Bool
deriving DecidableEq, Repr

/-- A registry feature in detail mode: `feature.load()` either yields a
factory or fails. -/
structure FeatureD where
  load : Option FactoryD
deriving DecidableEq, Repr

/-- The registry as consumed by detail mode: `find_feature` by name. -/
structure DetailRegistry where
  findFeature : String → Option FeatureD

/-- The status computed by `print_element_info` (main.rs:553-586): `-1`
when the feature fails to load, `-1` when the loaded factory fails to
instantiate an element, `0` otherwise. -/
def print_element_info (f : FeatureD) : Int :=
  match f.load with
  | none => -1
  | some fac => if fac.createOk then 0 else -1

/-- The status returned by `print_feature_info` (main.rs:588-600): `-1`
when the name resolves to nothing; otherwise the source calls
`print_element_info`, discards its result, and returns `0`. -/
def print_feature_info (r : DetailRegistry) (name : String) : Int :=
  match r.findFeature name with
  | none => -1
  | some f =>
    let _ := print_element_info f
    0

/-! ## Fixtures used by the witnesses and counterexamples -/

/-- A live-value lookup returning a boolean, for the C2 counterexample. -/
def liveBoolC2 : String → GValue := fun _ => GValue.boolV true

/-- A property spec with both the readable and the writable flag set,
for the C2 counterexample. -/
def pspecSyncC2 : ParamSpec :=
  { name := "sync", blurb := some "Sync on the clock",
    flags := [ParamFlag.readable, ParamFlag.writable],
    ownerType := "GstBaseSink", kind := PspecKind.boolK false }

/-- Feature table for the C9 witness: plugin `a` and plugin `b` each
contribute one element factory. -/
def fpbC9 : String → List Feature :=
  fun n =>
    if n = "a" then [{ name := "aelem", elementFactory := some "A element" }]
    else if n = "b" then [{ name := "belem", elementFactory := some "B element" }]
    else []

/-- Registry for the C9 witness enumerating plugin `b` before `a`. -/
def regBA : Registry :=
  { plugins := [{ plugin_name := "b" }, { plugin_name := "a" }], featuresByPlugin := fpbC9 }

/-- Registry for the C9 witness enumerating plugin `a` before `b`. -/
def regAB : Registry :=
  { plugins := [{ plugin_name := "a" }, { plugin_name := "b" }], featuresByPlugin := fpbC9 }

/-- A property spec with an absent blurb, for the C10 witness. -/
def pspecNoBlurbC10 : ParamSpec :=
  { name := "p", blurb := none, flags := [], ownerType := "GstThing",
    kind := PspecKind.boolK false }

/-- Detail registry for C1: `loadfail` resolves to a feature whose load
fails; `createfail` resolves to a feature whose factory loads but whose
element construction fails. -/
def regC1 : DetailRegistry :=
  { findFeature := fun n =>
      if n = "loadfail" then some { load := none }
      else if n = "createfail" then some { load := some { createOk := false } }
      else none }

/-! ## Helper lemmas -/

theorem depth_le_of_mem_linearize (t : GType) :
    ∀ x ∈ linearize t, GType.depth x ≤ GType.depth t := by
  induction t with
  | root n =>
    intro x hx
    simp only [linearize, List.mem_singleton] at hx
    subst hx; exact Nat.le_refl _
  | child n p ih =>
    intro x hx
    simp only [linearize, List.mem_append, List.mem_singleton] at hx
    rcases hx with hx | hx
    · exact Nat.le_trans (ih x hx) (Nat.le_succ _)
    · subst hx; exact Nat.le_refl _

theorem linearize_nodup (t : GType) : (linearize t).Nodup := by
  induction t with
  | root n => simp [linearize]
  | child n p ih =>
    simp only [linearize]
    rw [List.nodup_append]
    refine ⟨ih, List.nodup_singleton _, ?_⟩
    intro x hx hx'
    simp only [List.mem_singleton] at hx'
    subst hx'
    have := depth_le_of_mem_linearize p _ hx
    simp [GType.depth] at this

theorem linearize_ne_nil (t : GType) : linearize t ≠ [] := by
  cases t with
  | root n => simp [linearize]
  | child n p => simp [linearize]

theorem linearize_head? (t : GType) : (linearize t).head? = some t.rootOf := by
  induction t with
  | root n => rfl
  | child n p ih =>
    simp only [linearize, List.head?_append, ih, GType.rootOf]
    cases h : (linearize p).head? with
    | none => exact absurd (List.head?_eq_none_iff.mp h) (linearize_ne_nil p)
    | some a => rw [h] at ih; simp_all [Option.or]

theorem mem_linearize_iff (t x : GType) : x ∈ linearize t ↔ GType.inChain x t = true := by
  induction t with
  | root n => simp [linearize, GType.inChain]
  | child n p ih => simp [linearize, GType.inChain, ih, or_comm]

theorem strLe_trans : ∀ (a b c : String), strLe a b → strLe b c → strLe a c := by
  intro a b c h1 h2
  simp only [strLe, decide_eq_true_eq] at *
  exact le_trans h1 h2

theorem strLe_total : ∀ (a b : String), strLe a b || strLe b a := by
  intro a b
  simp only [strLe, Bool.or_eq_true, decide_eq_true_eq]
  exact le_total a b

theorem pluginLe_trans : ∀ (a b c : Plugin), pluginLe a b → pluginLe b c → pluginLe a c :=
  fun a b c => strLe_trans a.plugin_name b.plugin_name c.plugin_name

theorem pluginLe_total : ∀ (a b : Plugin), pluginLe a b || pluginLe b a :=
  fun a b => strLe_total a.plugin_name b.plugin_name

theorem featureLe_trans : ∀ (a b c : Feature), featureLe a b → featureLe b c → featureLe a c :=
  fun a b c => strLe_trans a.name b.name c.name

theorem featureLe_total : ∀ (a b : Feature), featureLe a b || featureLe b a :=
  fun a b => strLe_total a.name b.name

/-- Sorting two permutations of the same plugin list yields the same
sequence of plugin names: the sorted name sequences are permutations of
each other and both sorted, hence equal. -/
theorem sortPlugins_map_name (l l' : List Plugin) (h : l.Perm l') :
    (sortPlugins l).map Plugin.plugin_name = (sortPlugins l').map Plugin.plugin_name := by
  have e1 : (sortPlugins l).map Plugin.plugin_name
      = (l.map Plugin.plugin_name).mergeSort strLe :=
    List.map_mergeSort (fun a _ b _ => rfl)
  have e2 : (sortPlugins l').map Plugin.plugin_name
      = (l'.map Plugin.plugin_name).mergeSort strLe :=
    List.map_mergeSort (fun a _ b _ => rfl)
  rw [e1, e2]
  refine List.eq_of_perm_of_sorted (r := fun a b : String => a ≤ b)
    ((List.mergeSort_perm _ _).trans ((h.map _).trans (List.mergeSort_perm _ _).symm)) ?_ ?_
  · exact (List.sorted_mergeSort strLe_trans strLe_total _).imp
      (fun hab => by simpa [strLe] using hab)
  · exact (List.sorted_mergeSort strLe_trans strLe_total _).imp
      (fun hab => by simpa [strLe] using hab)

/-- Lemma: `renderProps` aborts (panics in the source) whenever the list
contains an unfiltered property spec with an absent blurb. -/
theorem renderProps_eq_none (live : String → GValue) (ord : List (ParamFlag × String))
    (p : ParamSpec) (hskip : skipOwner p.ownerType = false) (hblurb : p.blurb = none) :
    ∀ l : List ParamSpec, p ∈ l → renderProps live ord l = none := by
  intro l
  induction l with
  | nil => intro h; cases h
  | cons a t ih =>
    intro h
    rw [List.mem_cons] at h
    cases hb : skipOwner a.ownerType with
    | true =>
      have hp : p ∈ t := by
        rcases h with rfl | h
        · rw [hskip] at hb; cases hb
        · exact h
      simp [renderProps, hb, ih hp]
    | false =>
      rcases h with rfl | hp
      · simp [renderProps, hb, hblurb]
      · simp only [renderProps, hb, Bool.false_eq_true, if_false]
        cases hba : a.blurb with
        | none => rfl
        | some b =>
          cases hv : print_default_property_value live a
              (decide (ParamFlag.readable ∈ a.flags)) 22 with
          | none => rfl
          | some vl => simp [ih hp]

/-! ## Claim theorems -/

/-- C5: for every finite acyclic parent chain of length N starting at a
leaf type, the hierarchy linearizer produces exactly N+1 entries
(including the leaf itself), ordered root first and leaf last, with no
duplicates and no omissions. -/
theorem C5_linearize_correct (t : GType) :
    (linearize t).length = t.depth + 1 ∧
    (linearize t).head? = some t.rootOf ∧
    (linearize t).getLast? = some t ∧
    (linearize t).Nodup ∧
    ∀ x : GType, x ∈ linearize t ↔ GType.inChain x t = true := by
  refine ⟨?_, linearize_head? t, ?_, linearize_nodup t, fun x => mem_linearize_iff t x⟩
  · induction t with
    | root n => rfl
    | child n p ih => simp [linearize, GType.depth, ih]
  · cases t with
    | root n => rfl
    | child n p => simp [linearize, List.getLast?_concat]

/-- C6: a capability structure's header line carries a parenthesized
feature suffix if and only if the structure's feature is present and is
either the ANY feature marker or differs from the distinguished
system-memory default; otherwise the header is the bare structure
name. -/
theorem C6_feature_suffix (s : CapsStructure) (fo : Option CapsFeatures) :
    (∀ f, fo = some f → (f.isAny = true ∨ f ≠ sysMemFeatures) →
      headerLine s fo = indent6 ++ s.name ++ "(" ++ f.name ++ ")") ∧
    ((fo = none ∨ fo = some sysMemFeatures) → headerLine s fo = indent6 ++ s.name) := by
  constructor
  · intro f hf hcond
    subst hf
    rcases hcond with h | h
    · simp [headerLine, h]
    · simp [headerLine, h]
  · intro h
    rcases h with h | h <;> subst h <;> simp [headerLine, sysMemFeatures]

/-- C6 witness: a `video/x-raw` structure with a non-default
`memory:GLMemory` feature is rendered with the feature suffix, and with
the system-memory default feature it is rendered bare. -/
theorem C6_feature_suffix_witness :
    headerLine { name := "video/x-raw", fields := [("width", some "640")] }
        (some { isAny := false, name := "memory:GLMemory" })
      = indent6 ++ "video/x-raw" ++ "(" ++ "memory:GLMemory" ++ ")" ∧
    headerLine { name := "video/x-raw", fields := [("width", some "640")] }
        (some sysMemFeatures)
      = indent6 ++ "video/x-raw" :=
  ⟨(C6_feature_suffix _ _).1 _ rfl (Or.inr (by decide)),
   (C6_feature_suffix _ _).2 (Or.inr rfl)⟩

/-- C7: a field whose value fails to serialize is silently omitted while
every other field of that structure and every other structure in the set
is still rendered; the structure header is always emitted. -/
theorem C7_field_failure_localized (pre post : List (String × Option String))
    (n v : String) (l1 l2 : List (CapsStructure × Option CapsFeatures))
    (st : CapsStructure) (fo : Option CapsFeatures) :
    fieldLines (pre ++ (n, none) :: post) = fieldLines (pre ++ post) ∧
    fieldLines (pre ++ (n, some v) :: post)
      = fieldLines pre ++ fieldLine n v :: fieldLines post ∧
    renderStructure st fo = headerLine st fo :: fieldLines st.fields ∧
    print_caps (Caps.structures (l1 ++ (st, fo) :: l2))
      = print_caps (Caps.structures l1) ++ renderStructure st fo
          ++ print_caps (Caps.structures l2) := by
  refine ⟨?_, ?_, rfl, ?_⟩
  · simp [fieldLines, List.filterMap_append]
  · simp [fieldLines, List.filterMap_append]
  · simp [print_caps]

/-- C1: the claim requires a non-zero exit status in all three Detail
failure cases, but the code only delivers it for "not found":
`print_feature_info` discards the status computed by
`print_element_info`, so a run whose feature fails to load, or whose
factory fails to construct an element, exits with status 0 even though
`print_element_info` reported -1 for it. -/
theorem C1_failure_status_dropped :
    print_feature_info regC1 "absent" = -1 ∧
    (regC1.findFeature "loadfail").isSome = true ∧
    print_element_info { load := none } = -1 ∧
    print_feature_info regC1 "loadfail" = 0 ∧
    (regC1.findFeature "createfail").isSome = true ∧
    print_element_info { load := some { createOk := false } } = -1 ∧
    print_feature_info regC1 "createfail" = 0 := by
  decide

/-- C3: the claim requires the string "readable" exactly when the
readable flag is set and "writable" exactly when the writable flag is
set, but the source's `flags_to_string` table pairs the READABLE flag
with the text "writable" and the WRITABLE flag with the text
"readable": a property whose only flag is readable gets the flag string
"writable", and vice versa. -/
theorem C3_readable_writable_swapped :
    pspecFlagStrings flagsToString [ParamFlag.readable] = ["writable"] ∧
    pspecFlagStrings flagsToString [ParamFlag.writable] = ["readable"] ∧
    "readable" ∉ pspecFlagStrings flagsToString [ParamFlag.readable] ∧
    "writable" ∉ pspecFlagStrings flagsToString [ParamFlag.writable] := by
  decide

/-- C2 counterexample: two runs of Detail mode on the same element with
the same framework state differ byte-for-byte when the freshly built
`flags_to_string` hash map happens to iterate in a different order (both
orders being permutations of the same entries): the per-property flags
line lists the flag strings in iteration order. -/
theorem C2_determinism_counterexample :
    List.Perm flagsToString.reverse flagsToString ∧
    print_element_properties liveBoolC2 flagsToString [pspecSyncC2]
      ≠ print_element_properties liveBoolC2 flagsToString.reverse [pspecSyncC2] := by
  constructor
  · decide
  · simp only [print_element_properties, List.mergeSort_singleton]
    decide

/-- C2 amended: Detail-mode output is deterministic up to the order of
the flag strings within each per-property flags line: for any two
hash-map iteration orders (permutations of the `flags_to_string`
entries) the flags line lists the same multiset of flag strings, and all
printers are pure functions of their inputs, so for a fixed iteration
order the output is byte-identical. -/
theorem C2_flags_multiset_deterministic (fl : List ParamFlag)
    (ord1 ord2 : List (ParamFlag × String))
    (h1 : ord1.Perm flagsToString) (h2 : ord2.Perm flagsToString) :
    (pspecFlagStrings ord1 fl).Perm (pspecFlagStrings ord2 fl) := by
  exact ((h1.filter _).map _).trans (((h2.filter _).map _).symm)

/-- C2 amended witness: the table order and its reverse yield the same
multiset of flag strings for a readable and writable property. -/
theorem C2_flags_multiset_deterministic_witness :
    (pspecFlagStrings flagsToString [ParamFlag.readable, ParamFlag.writable]).Perm
      (pspecFlagStrings flagsToString.reverse [ParamFlag.readable, ParamFlag.writable]) :=
  C2_flags_multiset_deterministic [ParamFlag.readable, ParamFlag.writable]
    flagsToString flagsToString.reverse (List.Perm.refl _) (by decide)

/-- C4 counterexample: a boolean-typed property value is rendered with
surrounding quotation marks, not as the bare literal: the default of an
unreadable boolean property with default `true` renders as `"true"`
(quotes included), which differs from the bare rendering the claim
requires. -/
theorem C4_bool_quoted_counterexample :
    print_default_property_value (fun _ => GValue.otherV)
        { name := "sync", blurb := none, flags := [], ownerType := "GstBaseSink",
          kind := PspecKind.boolK true } false 22
      = some [spaces 22 ++ ": Boolean. Default: " ++ "\"" ++ "true" ++ "\""] ∧
    print_default_property_value (fun _ => GValue.otherV)
        { name := "sync", blurb := none, flags := [], ownerType := "GstBaseSink",
          kind := PspecKind.boolK true } false 22
      ≠ some [spaces 22 ++ ": Boolean. Default: " ++ "true"] := by
  decide

/-- C4 amended: every boolean-typed property value is rendered by the
Property Value Formatter as the literal `true` or `false` surrounded by
double quotation marks. -/
theorem C4_bool_quoted_amended (live : String → GValue) (nm : String)
    (bl : Option String) (fl : List ParamFlag) (ot : String) (d : Bool) (ind : Nat) :
    (print_default_property_value live
        { name := nm, blurb := bl, flags := fl, ownerType := ot,
          kind := PspecKind.boolK d } false ind
      = some [boolLine ind d]) ∧
    (∀ b, live nm = GValue.boolV b →
      print_default_property_value live
          { name := nm, blurb := bl, flags := fl, ownerType := ot,
            kind := PspecKind.boolK d } true ind
        = some [boolLine ind b]) ∧
    (∀ (b : Bool) (ind2 : Nat), boolLine ind2 b
      = spaces ind2 ++ ": Boolean. Default: " ++ "\""
          ++ (if b then "true" else "false") ++ "\"") := by
  refine ⟨rfl, ?_, fun b ind2 => by simp [boolLine]⟩
  intro b hb
  simp [print_default_property_value, selectValue, hb, dispatchValue]

/-- C4 amended witness: the readable case at a concrete live value. -/
theorem C4_bool_quoted_amended_witness :
    print_default_property_value (fun _ => GValue.boolV false)
        { name := "sync", blurb := none, flags := [], ownerType := "GstBaseSink",
          kind := PspecKind.boolK true } true 22
      = some [boolLine 22 false] :=
  (C4_bool_quoted_amended (fun _ => GValue.boolV false) "sync" none [] "GstBaseSink"
    true 22).2.1 false rfl

/-- C8: for every ranged numeric property — signed and unsigned 32-bit
and 64-bit integers, the platform long variants, and 32/64-bit floating
point — the rendered Range shows the minimum and maximum taken from the
property spec, never from the bound value; the choice between the live
bound value (readable) and the declared static default (otherwise) is
made once, before type-tag dispatch; an unreadable ranged property
renders Range and Default from the spec alone, for every possible live
state. -/
theorem C8_range_from_spec (live : String → GValue) (nm : String) (bl : Option String)
    (fl : List ParamFlag) (ot : String) (lo hi df : Int) (ulo uhi udf : Nat)
    (flo fhi fdf : Float) (ind : Nat) :
    (print_default_property_value live
        { name := nm, blurb := bl, flags := fl, ownerType := ot,
          kind := PspecKind.intK lo hi df } false ind
      = some [rangedLine ind "Integer" (toString lo) (toString hi) (toString df)]) ∧
    (∀ v, live nm = GValue.intV v →
      print_default_property_value live
          { name := nm, blurb := bl, flags := fl, ownerType := ot,
            kind := PspecKind.intK lo hi df } true ind
        = some [rangedLine ind "Integer" (toString lo) (toString hi) (toString v)]) ∧
    (print_default_property_value live
        { name := nm, blurb := bl, flags := fl, ownerType := ot,
          kind := PspecKind.uintK ulo uhi udf } false ind
      = some [rangedLine ind "Unsigned Integer" (toString ulo) (toString uhi) (toString udf)]) ∧
    (∀ v, live nm = GValue.uintV v →
      print_default_property_value live
          { name := nm, blurb := bl, flags := fl, ownerType := ot,
            kind := PspecKind.uintK ulo uhi udf } true ind
        = some [rangedLine ind "Unsigned Integer" (toString ulo) (toString uhi) (toString v)]) ∧
    (print_default_property_value live
        { name := nm, blurb := bl, flags := fl, ownerType := ot,
          kind := PspecKind.int64K lo hi df } false ind
      = some [rangedLine ind "Integer64" (toString lo) (toString hi) (toString df)]) ∧
    (∀ v, live nm = GValue.int64V v →
      print_default_property_value live
          { name := nm, blurb := bl, flags := fl, ownerType := ot,
            kind := PspecKind.int64K lo hi df } true ind
        = some [rangedLine ind "Integer64" (toString lo) (toString hi) (toString v)]) ∧
    (print_default_property_value live
        { name := nm, blurb := bl, flags := fl, ownerType := ot,
          kind := PspecKind.uint64K ulo uhi udf } false ind
      = some [rangedLine ind "Unsigned Integer64" (toString ulo) (toString uhi) (toString udf)]) ∧
    (∀ v, live nm = GValue.uint64V v →
      print_default_property_value live
          { name := nm, blurb := bl, flags := fl, ownerType := ot,
            kind := PspecKind.uint64K ulo uhi udf } true ind
        = some [rangedLine ind "Unsigned Integer64" (toString ulo) (toString uhi) (toString v)]) ∧
    (print_default_property_value live
        { name := nm, blurb := bl, flags := fl, ownerType := ot,
          kind := PspecKind.longK lo hi df } false ind
      = some [rangedLine ind "Long" (toString lo) (toString hi) (toString df)]) ∧
    (∀ v, live nm = GValue.longV v →
      print_default_property_value live
          { name := nm, blurb := bl, flags := fl, ownerType := ot,
            kind := PspecKind.longK lo hi df } true ind
        = some [rangedLine ind "Long" (toString lo) (toString hi) (toString v)]) ∧
    (print_default_property_value live
        { name := nm, blurb := bl, flags := fl, ownerType := ot,
          kind := PspecKind.ulongK ulo uhi udf } false ind
      = some [rangedLine ind "Unsigned Long" (toString ulo) (toString uhi) (toString udf)]) ∧
    (∀ v, live nm = GValue.ulongV v →
      print_default_property_value live
          { name := nm, blurb := bl, flags := fl, ownerType := ot,
            kind := PspecKind.ulongK ulo uhi udf } true ind
        = some [rangedLine ind "Unsigned Long" (toString ulo) (toString uhi) (toString v)]) ∧
    (print_default_property_value live
        { name := nm, blurb := bl, flags := fl, ownerType := ot,
          kind := PspecKind.floatK flo fhi fdf } false ind
      = some [rangedLine ind "Float" (toString flo) (toString fhi) (toString fdf)]) ∧
    (∀ v, live nm = GValue.floatV v →
      print_default_property_value live
          { name := nm, blurb := bl, flags := fl, ownerType := ot,
            kind := PspecKind.floatK flo fhi fdf } true ind
        = some [rangedLine ind "Float" (toString flo) (toString fhi) (toString v)]) ∧
    (print_default_property_value live
        { name := nm, blurb := bl, flags := fl, ownerType := ot,
          kind := PspecKind.doubleK flo fhi fdf } false ind
      = some [rangedLine ind "Double" (toString flo) (toString fhi) (toString fdf)]) ∧
    (∀ v, live nm = GValue.doubleV v →
      print_default_property_value live
          { name := nm, blurb := bl, flags := fl, ownerType := ot,
            kind := PspecKind.doubleK flo fhi fdf } true ind
        = some [rangedLine ind "Double" (toString flo) (toString fhi) (toString v)]) ∧
    (∀ (spec : ParamSpec) (readable : Bool),
      print_default_property_value live spec readable ind
        = dispatchValue spec ind (selectValue live spec readable)) := by
  refine ⟨rfl, ?_, rfl, ?_, rfl, ?_, rfl, ?_, rfl, ?_, rfl, ?_, rfl, ?_, rfl, ?_,
    fun spec readable => rfl⟩
  all_goals intro v hv
  all_goals simp [print_default_property_value, selectValue, hv, dispatchValue]

/-- C8 witness: the spec's example, an integer property with minimum 0,
maximum 100 and default 50: unreadable, it renders Range 0 - 100 and
Default 50; readable with live value 7, the Range is still taken from
the spec. -/
theorem C8_range_from_spec_witness :
    (print_default_property_value (fun _ => GValue.intV 7)
        { name := "level", blurb := none, flags := [], ownerType := "GstX",
          kind := PspecKind.intK 0 100 50 } false 22
      = some [rangedLine 22 "Integer" (toString (0 : Int)) (toString (100 : Int))
          (toString (50 : Int))]) ∧
    (print_default_property_value (fun _ => GValue.intV 7)
        { name := "level", blurb := none, flags := [], ownerType := "GstX",
          kind := PspecKind.intK 0 100 50 } true 22
      = some [rangedLine 22 "Integer" (toString (0 : Int)) (toString (100 : Int))
          (toString (7 : Int))]) :=
  ⟨(C8_range_from_spec (fun _ => GValue.intV 7) "level" none [] "GstX"
      0 100 50 0 0 0 0 0 0 22).1,
   (C8_range_from_spec (fun _ => GValue.intV 7) "level" none [] "GstX"
      0 100 50 0 0 0 0 0 0 22).2.1 7 rfl⟩

/-- C9: in List mode, output lines are grouped by plugin in
byte-lexicographic order of plugin name, within each plugin features
appear in byte-lexicographic order of feature name, only element
factories produce a line, each line has the form
`<plugin>:  <element>: <longname>`, and the output does not depend on
the registry's enumeration order of the plugin list. -/
theorem C9_list_mode_sorted (r : Registry) :
    (print_element_list r
      = ((sortPlugins r.plugins).map
          (fun p => pluginLines r.featuresByPlugin p.plugin_name)).flatten) ∧
    (∀ line ∈ print_element_list r, ∃ p ∈ r.plugins,
      ∃ f ∈ r.featuresByPlugin p.plugin_name, ∃ long, f.elementFactory = some long ∧
        line = p.plugin_name ++ ":  " ++ f.name ++ ": " ++ long) ∧
    (∀ p ∈ r.plugins, ∀ f ∈ r.featuresByPlugin p.plugin_name, ∀ long,
      f.elementFactory = some long →
        (p.plugin_name ++ ":  " ++ f.name ++ ": " ++ long) ∈ print_element_list r) ∧
    ((sortPlugins r.plugins).map Plugin.plugin_name).Pairwise (fun a b => a ≤ b) ∧
    (∀ pname, ((sortFeatures (r.featuresByPlugin pname)).map Feature.name).Pairwise
      (fun a b => a ≤ b)) ∧
    (∀ r' : Registry, r.plugins.Perm r'.plugins →
      r.featuresByPlugin = r'.featuresByPlugin →
      print_element_list r = print_element_list r') := by
  refine ⟨rfl, ?_, ?_, ?_, ?_, ?_⟩
  · intro line hline
    simp only [print_element_list, List.mem_flatten, List.mem_map] at hline
    obtain ⟨_, ⟨p, hp, rfl⟩, hline⟩ := hline
    have hp' : p ∈ r.plugins := List.mem_mergeSort.mp hp
    simp only [pluginLines, List.mem_filterMap] at hline
    obtain ⟨f, hf, he⟩ := hline
    have hf' : f ∈ r.featuresByPlugin p.plugin_name := List.mem_mergeSort.mp hf
    simp only [elementLine, Option.map_eq_some'] at he
    obtain ⟨long, hfac, rfl⟩ := he
    exact ⟨p, hp', f, hf', long, hfac, rfl⟩
  · intro p hp f hf long hfac
    simp only [print_element_list, List.mem_flatten]
    refine ⟨pluginLines r.featuresByPlugin p.plugin_name,
      List.mem_map_of_mem _ (List.mem_mergeSort.mpr hp), ?_⟩
    simp only [pluginLines, List.mem_filterMap]
    exact ⟨f, List.mem_mergeSort.mpr hf, by simp [elementLine, hfac]⟩
  · refine List.pairwise_map.mpr ?_
    exact (List.sorted_mergeSort pluginLe_trans pluginLe_total _).imp
      (fun hab => by simpa [pluginLe] using hab)
  · intro pname
    refine List.pairwise_map.mpr ?_
    exact (List.sorted_mergeSort featureLe_trans featureLe_total _).imp
      (fun hab => by simpa [featureLe] using hab)
  · intro r' hperm hfpb
    have exp : ∀ (rr : Registry), print_element_list rr
        = (((sortPlugins rr.plugins).map Plugin.plugin_name).map
            (pluginLines rr.featuresByPlugin)).flatten := by
      intro rr
      rw [List.map_map]
      rfl
    rw [exp r, exp r', sortPlugins_map_name _ _ hperm, hfpb]

/-- C9 witness: the spec's own example: two plugins named `b` and `a`,
each contributing one element, enumerated in either order, print
identical output. -/
theorem C9_list_mode_sorted_witness :
    print_element_list regBA = print_element_list regAB :=
  (C9_list_mode_sorted regBA).2.2.2.2.2 regAB (by decide) rfl

/-- C10: Detail-mode property printing unconditionally unwraps each
displayed property's blurb: whenever any property that passes the
owner-type filter has an absent blurb, `print_element_properties`
panics (modelled as `none`) instead of completing the report. -/
theorem C10_blurb_unwrap_panics (live : String → GValue)
    (ord : List (ParamFlag × String)) (specs : List ParamSpec) (p : ParamSpec)
    (hmem : p ∈ specs) (hskip : skipOwner p.ownerType = false)
    (hblurb : p.blurb = none) :
    print_element_properties live ord specs = none := by
  unfold print_element_properties
  rw [renderProps_eq_none live ord p hskip hblurb _ (List.mem_mergeSort.mpr hmem)]
  rfl

/-- C10 witness: one property spec with an absent blurb and an owner
type that passes the filter makes the property report panic. -/
theorem C10_blurb_unwrap_panics_witness :
    print_element_properties (fun _ => GValue.otherV) flagsToString
      [pspecNoBlurbC10] = none :=
  C10_blurb_unwrap_panics (fun _ => GValue.otherV) flagsToString [pspecNoBlurbC10]
    pspecNoBlurbC10 (List.mem_singleton.mpr rfl) (by decide) rfl

end GstInspect


